import Mathlib

/-!
# GestureFlow — verification of the gesture-driven interaction engine

Shallow embedding of the core interaction logic of the GestureFlow
repository (TypeScript/React), covering:

* the gesture classifier in `HandTracker` (`predictWebcam`),
* the hold-to-confirm timer and radial-sector logic in `App.tsx`,
* the gesture-settings gate (`handleHandUpdate`),
* the drag/transform controller in `Scene3D` (`InteractionManager`),
* the store-side helpers (`handleUpdateObject`, `handlePlaceObject`).

Conventions of the embedding:

* Machine floating-point numbers are modelled as rationals (`ℚ`).
* The source compares square roots of sums of squares against
  non-negative thresholds (`Math.sqrt(dx*dx+dy*dy) > c`).  Since
  `Real.sqrt` is strictly monotone on non-negatives, every such
  comparison is embedded as the equivalent comparison of squares
  (`dx^2+dy^2 > c^2`), keeping all definitions executable over `ℚ`.
* Library math that is external to the repository (THREE.js camera
  unprojection, the raycaster, `Math.atan2`) is passed in as explicit
  per-frame inputs (ray origin/direction, hit result, angle in degrees);
  everything computed by the repository's own code from those values is
  embedded directly.
* Purely visual state (cursor mesh colour/scale/visibility, progress-bar
  percentages) is not modelled; it feeds back into no branch of the
  interaction logic.
-/

/-! ## Basic vocabulary: types from `types.ts` -/

/-- `GestureType` from `types.ts`. -/
inductive GestureType where
  | none
  | pointing
  | pinch
  | victory
  | rock
  | thumbsUp
  | thumbDown
  | threeFingers
  | shaka
deriving DecidableEq, Repr

/-- `AppMode` from `types.ts`. -/
inductive AppMode where
  | view
  | edit
  | create
  | menu
  | placing
  | radial
  | hub
  | settings
deriving DecidableEq, Repr

/-- `TransformMode` from `types.ts`. -/
inductive TransformMode where
  | translate
  | rotate
  | scale
  | color
deriving DecidableEq, Repr

/-! ## Gesture classifier (`HandTracker`, `predictWebcam`) -/

/-- One MediaPipe `NormalizedLandmark`: a 3D point. -/
structure Landmark where
  x : ℚ
  y : ℚ
  z : ℚ
deriving DecidableEq, Repr

/-- The landmarks of the 21-point hand that `predictWebcam` actually
reads, by their names in the source (`landmarks[0]`, `landmarks[3]`,
`landmarks[4]`, `landmarks[6]`, `landmarks[8]`, `landmarks[10]`,
`landmarks[12]`, `landmarks[14]`, `landmarks[16]`, `landmarks[18]`,
`landmarks[20]`). -/
structure LandmarkSet where
  wrist : Landmark
  thumbIp : Landmark
  thumbTip : Landmark
  indexPip : Landmark
  indexTip : Landmark
  middlePip : Landmark
  middleTip : Landmark
  ringPip : Landmark
  ringTip : Landmark
  pinkyPip : Landmark
  pinkyTip : Landmark
deriving DecidableEq, Repr

/-- `PINCH_THRESHOLD` from `constants.ts` (0.05). -/
def PINCH_THRESHOLD : ℚ := 5 / 100

/-- The square of the source's `getDist` helper:
`Math.sqrt((p1.x-p2.x)^2 + (p1.y-p2.y)^2)`.  The source uses only the
`x` and `y` coordinates of the landmarks; `z` is not read.  We carry the
square so that every comparison stays in `ℚ`. -/
def getDistSq (p1 p2 : Landmark) : ℚ :=
  (p1.x - p2.x) ^ 2 + (p1.y - p2.y) ^ 2

/-- `isIndexExt`: fingertip farther from the wrist than the knuckle. -/
def isIndexExt (l : LandmarkSet) : Bool :=
  decide (getDistSq l.indexTip l.wrist > getDistSq l.indexPip l.wrist)

/-- `isMiddleExt`. -/
def isMiddleExt (l : LandmarkSet) : Bool :=
  decide (getDistSq l.middleTip l.wrist > getDistSq l.middlePip l.wrist)

/-- `isRingExt`. -/
def isRingExt (l : LandmarkSet) : Bool :=
  decide (getDistSq l.ringTip l.wrist > getDistSq l.ringPip l.wrist)

/-- `isPinkyExt`. -/
def isPinkyExt (l : LandmarkSet) : Bool :=
  decide (getDistSq l.pinkyTip l.wrist > getDistSq l.pinkyPip l.wrist)

/-- `isThumbFar = getDist(thumbTip, indexPip) > 0.05` (squared form). -/
def isThumbFar (l : LandmarkSet) : Bool :=
  decide (getDistSq l.thumbTip l.indexPip > (5 / 100 : ℚ) ^ 2)

/-- `isThumbUp = thumbTip.y < thumbIp.y` (image Y grows downward). -/
def isThumbUp (l : LandmarkSet) : Bool :=
  decide (l.thumbTip.y < l.thumbIp.y)

/-- `isThumbDown = thumbTip.y > thumbIp.y`. -/
def isThumbDown (l : LandmarkSet) : Bool :=
  decide (l.thumbTip.y > l.thumbIp.y)

/-- `pinchDist = getDist(thumbTip, indexTip)` (squared form). -/
def pinchDistSq (l : LandmarkSet) : ℚ :=
  getDistSq l.thumbTip l.indexTip

/-- `isPinching = pinchDist < PINCH_THRESHOLD` (squared form). -/
def isPinching (l : LandmarkSet) : Bool :=
  decide (pinchDistSq l < PINCH_THRESHOLD ^ 2)

/-- Rule 1 condition of the decision tree (CANCEL / SHAKA). -/
def shakaCond (l : LandmarkSet) : Bool :=
  isThumbFar l && isPinkyExt l && !isIndexExt l && !isMiddleExt l && !isRingExt l

/-- Rule 3 condition (CREATE / VICTORY). -/
def victoryCond (l : LandmarkSet) : Bool :=
  isIndexExt l && isMiddleExt l && !isRingExt l && !isPinkyExt l

/-- Rule 4 condition (CONFIG / ROCK). -/
def rockCond (l : LandmarkSet) : Bool :=
  isIndexExt l && isPinkyExt l && !isMiddleExt l && !isRingExt l

/-- Rule 5 condition (ZOOM IN / THUMBS UP). -/
def thumbsUpCond (l : LandmarkSet) : Bool :=
  !isIndexExt l && !isMiddleExt l && !isRingExt l && !isPinkyExt l
    && isThumbFar l && isThumbUp l

/-- Rule 6 condition (ZOOM OUT / THUMBS DOWN). -/
def thumbDownCond (l : LandmarkSet) : Bool :=
  !isIndexExt l && !isMiddleExt l && !isRingExt l && !isPinkyExt l
    && isThumbFar l && isThumbDown l

/-- Rule 7 condition (RADIAL TOOLS / THREE FINGERS). -/
def threeFingersCond (l : LandmarkSet) : Bool :=
  isIndexExt l && isMiddleExt l && isRingExt l && !isPinkyExt l

/-- Rule 8 condition (POINTING). -/
def pointingCond (l : LandmarkSet) : Bool :=
  isIndexExt l && !isMiddleExt l && !isRingExt l && !isPinkyExt l

/-- The decision tree of `predictWebcam` (`let gesture = NONE; if … else
if … `), translated condition for condition in source order. -/
def classify (l : LandmarkSet) : GestureType :=
  if shakaCond l then .shaka
  else if isPinching l then .pinch
  else if victoryCond l then .victory
  else if rockCond l then .rock
  else if thumbsUpCond l then .thumbsUp
  else if thumbDownCond l then .thumbDown
  else if threeFingersCond l then .threeFingers
  else if pointingCond l then .pointing
  else .none

/-! Spec-side restatement of the cascade for claim C1: the rules as an
ordered list, and "first matching rule wins, else `None`". -/

/-- The fixed priority list of rules from the spec (§4.1):
Shaka, Pinch, Victory, Rock, ThumbsUp, ThumbsDown, ThreeFingers,
Pointing.  Used only to state the first-match property of claim C1. -/
def gestureRules : List ((LandmarkSet → Bool) × GestureType) :=
  [ (shakaCond, .shaka)
  , (isPinching, .pinch)
  , (victoryCond, .victory)
  , (rockCond, .rock)
  , (thumbsUpCond, .thumbsUp)
  , (thumbDownCond, .thumbDown)
  , (threeFingersCond, .threeFingers)
  , (pointingCond, .pointing) ]

/-- Spec-side classifier: the tag of the first matching rule in
`gestureRules`, else `None`. -/
def classifySpec (l : LandmarkSet) : GestureType :=
  ((gestureRules.find? (fun r => r.1 l)).map (fun r => r.2)).getD .none

/-- Full 3D squared Euclidean distance (uses the `z` coordinate).  This
follows the wording of the spec ("Euclidean distance" between "3D
points (x,y,z)"); the source's `getDist` does not. -/
def euclid3Sq (p1 p2 : Landmark) : ℚ :=
  (p1.x - p2.x) ^ 2 + (p1.y - p2.y) ^ 2 + (p1.z - p2.z) ^ 2

/-- Two landmarks agreeing on the image-plane coordinates. -/
def xyAgree (p q : Landmark) : Prop := p.x = q.x ∧ p.y = q.y

/-- Two landmark sets agreeing pointwise on the image-plane coordinates
(they may differ arbitrarily in every `z`). -/
def lsXYAgree (a b : LandmarkSet) : Prop :=
  xyAgree a.wrist b.wrist ∧ xyAgree a.thumbIp b.thumbIp ∧
  xyAgree a.thumbTip b.thumbTip ∧ xyAgree a.indexPip b.indexPip ∧
  xyAgree a.indexTip b.indexTip ∧ xyAgree a.middlePip b.middlePip ∧
  xyAgree a.middleTip b.middleTip ∧ xyAgree a.ringPip b.ringPip ∧
  xyAgree a.ringTip b.ringTip ∧ xyAgree a.pinkyPip b.pinkyPip ∧
  xyAgree a.pinkyTip b.pinkyTip

theorem getDistSq_congr {p p' q q' : Landmark}
    (hp : xyAgree p p') (hq : xyAgree q q') :
    getDistSq p q = getDistSq p' q' := by
  unfold getDistSq
  rw [hp.1, hp.2, hq.1, hq.2]

/-! ### Claims C1 and C7 -/

/-- C1: For every landmark set, the gesture classifier returns the tag
of the first matching rule in the fixed priority order Shaka, Pinch,
Victory, Rock, ThumbsUp, ThumbsDown, ThreeFingers, Pointing, else None;
in particular whenever both the Shaka finger pattern and the pinch
condition hold the output is Shaka, and whenever the pinch condition
holds but the Shaka pattern does not, the output is Pinch regardless of
all other finger states. -/
theorem classify_priority_cascade :
    (∀ l : LandmarkSet, classify l = classifySpec l) ∧
    (∀ l : LandmarkSet, shakaCond l = true → isPinching l = true →
      classify l = .shaka) ∧
    (∀ l : LandmarkSet, isPinching l = true → shakaCond l = false →
      classify l = .pinch) := by
  refine ⟨?_, ?_, ?_⟩
  · intro l
    unfold classify classifySpec gestureRules
    cases h1 : shakaCond l <;> cases h2 : isPinching l <;>
      cases h3 : victoryCond l <;> cases h4 : rockCond l <;>
      cases h5 : thumbsUpCond l <;> cases h6 : thumbDownCond l <;>
      cases h7 : threeFingersCond l <;> cases h8 : pointingCond l <;>
      simp [List.find?, h1, h2, h3, h4, h5, h6, h7, h8]
  · intro l h1 _
    unfold classify
    simp [h1]
  · intro l h2 h1
    unfold classify
    simp [h1, h2]

/-- A concrete landmark set satisfying both the Shaka pattern and the
pinch condition (thumb tip touches the curled index tip while staying
far from the index knuckle; pinky extended, index/middle/ring curled). -/
def lsShakaPinch : LandmarkSet where
  wrist := ⟨0, 0, 0⟩
  thumbIp := ⟨0, 1, 0⟩
  thumbTip := ⟨1/2, 1/100, 0⟩
  indexPip := ⟨1, 0, 0⟩
  indexTip := ⟨1/2, 0, 0⟩
  middlePip := ⟨1, 1, 0⟩
  middleTip := ⟨1/2, 1/2, 0⟩
  ringPip := ⟨1, -1, 0⟩
  ringTip := ⟨1/2, -1/2, 0⟩
  pinkyPip := ⟨1/5, 0, 0⟩
  pinkyTip := ⟨2, 0, 0⟩

/-- Witness for C1: at `lsShakaPinch` both the Shaka pattern and the
pinch condition hold, and the classifier outputs Shaka. -/
theorem classify_priority_cascade_witness :
    shakaCond lsShakaPinch = true ∧ isPinching lsShakaPinch = true ∧
    classify lsShakaPinch = .shaka :=
  ⟨by norm_num [shakaCond, isThumbFar, isPinkyExt, isIndexExt, isMiddleExt,
      isRingExt, getDistSq, lsShakaPinch],
   by norm_num [isPinching, pinchDistSq, getDistSq, lsShakaPinch,
      PINCH_THRESHOLD],
   classify_priority_cascade.2.1 lsShakaPinch
    (by norm_num [shakaCond, isThumbFar, isPinkyExt, isIndexExt, isMiddleExt,
      isRingExt, getDistSq, lsShakaPinch])
    (by norm_num [isPinching, pinchDistSq, getDistSq, lsShakaPinch,
      PINCH_THRESHOLD])⟩

/-- A landmark set identical to `lsShakaPinch` in the image plane but
with the thumb tip displaced one full unit along `z` away from the index
tip: its 3D thumb-to-index distance is ≥ 1 ≥ 0.05, yet the classifier
still reports a pinch. -/
def lsZOffset : LandmarkSet :=
  { lsShakaPinch with thumbTip := ⟨1/2, 1/100, 1⟩, indexTip := ⟨1/2, 0, 0⟩ }

/-- Counterexample for C7 as stated: the classifier's pinch test is not
the 3D Euclidean distance between thumb tip and index tip.  At
`lsZOffset`, `isPinching` holds although the squared 3D distance between
the two tips is ≥ `0.05²` (so the 3D Euclidean distance is ≥ 0.05). -/
theorem pinch_not_3d_euclidean :
    isPinching lsZOffset = true ∧
    ¬ euclid3Sq lsZOffset.thumbTip lsZOffset.indexTip < PINCH_THRESHOLD ^ 2 := by
  constructor <;>
    norm_num [isPinching, pinchDistSq, getDistSq, euclid3Sq, lsZOffset,
      lsShakaPinch, PINCH_THRESHOLD]

/-- C7 (amended): the classifier's pinch distance is the Euclidean
distance computed in the image plane only (x and y; the z coordinate is
ignored, so the whole classifier is invariant under arbitrary changes of
the landmarks' z coordinates), and `isPinching` holds iff that planar
distance is strictly below the 0.05 threshold (squared form); the same
planar metric `getDistSq` underlies the thumb-far test and the
per-finger extension tests. -/
theorem pinch_planar_metric :
    (∀ a b : LandmarkSet, lsXYAgree a b →
      classify a = classify b ∧ pinchDistSq a = pinchDistSq b ∧
      isPinching a = isPinching b) ∧
    (∀ l : LandmarkSet, isPinching l = true ↔
      pinchDistSq l < PINCH_THRESHOLD ^ 2) ∧
    (∀ l : LandmarkSet,
      pinchDistSq l =
        (l.thumbTip.x - l.indexTip.x) ^ 2 + (l.thumbTip.y - l.indexTip.y) ^ 2) ∧
    (∀ l : LandmarkSet, isThumbFar l =
      decide (getDistSq l.thumbTip l.indexPip > (5 / 100 : ℚ) ^ 2)) ∧
    (∀ l : LandmarkSet, isIndexExt l =
      decide (getDistSq l.indexTip l.wrist > getDistSq l.indexPip l.wrist)) := by
  refine ⟨?_, ?_, ?_, ?_, ?_⟩
  · intro a b h
    obtain ⟨hw, hti, htt, hip, hit, hmp, hmt, hrp, hrt, hpp, hpt⟩ := h
    have hd : pinchDistSq a = pinchDistSq b := by
      unfold pinchDistSq
      exact getDistSq_congr htt hit
    have hpin : isPinching a = isPinching b := by
      unfold isPinching
      rw [hd]
    refine ⟨?_, hd, hpin⟩
    unfold classify shakaCond victoryCond rockCond thumbsUpCond
      thumbDownCond threeFingersCond pointingCond
      isIndexExt isMiddleExt isRingExt isPinkyExt isThumbFar
      isThumbUp isThumbDown
    rw [getDistSq_congr htt hip, getDistSq_congr hit hw,
      getDistSq_congr hip hw, getDistSq_congr hmt hw,
      getDistSq_congr hmp hw, getDistSq_congr hrt hw,
      getDistSq_congr hrp hw, getDistSq_congr hpt hw,
      getDistSq_congr hpp hw, htt.2, hti.2, hpin]
  · intro l
    unfold isPinching
    exact decide_eq_true_iff
  · intro l
    rfl
  · intro l
    rfl
  · intro l
    rfl

/-- Witness for C7 (amended): a concrete instantiation — `lsShakaPinch`
and `lsZOffset` agree in the image plane, so the classifier treats them
identically; and the pinch test at `lsShakaPinch` is exactly the planar
squared-distance comparison. -/
theorem pinch_planar_metric_witness :
    classify lsZOffset = classify lsShakaPinch ∧
    (isPinching lsShakaPinch = true ↔
      pinchDistSq lsShakaPinch < PINCH_THRESHOLD ^ 2) :=
  ⟨((pinch_planar_metric.1 lsZOffset lsShakaPinch
      (by simp [lsXYAgree, xyAgree, lsZOffset, lsShakaPinch])).1),
    pinch_planar_metric.2.1 lsShakaPinch⟩

/-! ## Hold-to-confirm timer (`App.tsx`, gesture logic loop) -/

/-- The four `currentTargetAction` values of the hold-detection block in
`App.tsx` (CANCEL, SETTINGS, MENU, RADIAL). -/
inductive HoldAction where
  | cancel
  | settings
  | menu
  | radial
deriving DecidableEq, Repr

/-- The mode each hold action transitions to when it fires
(`setMode(...)` in the `elapsed >= HOLD_DURATION` branch). -/
def holdTargetMode : HoldAction → AppMode
  | .cancel => .view
  | .settings => .settings
  | .menu => .menu
  | .radial => .radial

/-- `HOLD_DURATION` from `App.tsx` (1000 ms). -/
def HOLD_DURATION : ℕ := 1000

/-- The `holdStart` state: `{type: GestureType, time: number}`. -/
structure HoldStart where
  type : GestureType
  time : ℕ
deriving DecidableEq, Repr

/-- The candidate-trigger computation of the hold block: SHAKA → CANCEL
always; ROCK → SETTINGS always; VICTORY → MENU when mode is neither MENU
nor PLACING; THREE_FINGERS → RADIAL when a selection exists and mode is
not RADIAL.  `hasSelection` stands for the truthiness of `selectedId`. -/
def currentTarget (g : GestureType) (mode : AppMode) (hasSelection : Bool) :
    Option HoldAction :=
  if g = .shaka then some .cancel
  else if g = .rock then some .settings
  else if g = .victory ∧ mode ≠ .menu ∧ mode ≠ .placing then some .menu
  else if g = .threeFingers ∧ hasSelection ∧ mode ≠ .radial then some .radial
  else none

/-- One tick of the hold-detection block (`App.tsx`, "Process Hold"),
given the frame's gesture `g` and wall clock `now`: returns the new
`holdStart` state and the action fired this tick (if any).  Progress
display (`setActiveProgress`) is visual only and not modelled. -/
def holdTick (mode : AppMode) (hasSelection : Bool)
    (holdStart : Option HoldStart) (g : GestureType) (now : ℕ) :
    Option HoldStart × Option HoldAction :=
  match currentTarget g mode hasSelection with
  | some a =>
    match holdStart with
    | none => (some ⟨g, now⟩, none)
    | some hs =>
      if hs.type ≠ g then (some ⟨g, now⟩, none)
      else if HOLD_DURATION ≤ now - hs.time then (none, some a)
      else (some hs, none)
  | none => (none, none)

/-- The hold block iterated over a list of frame times (same sustained
gesture, mode and selection throughout): final `holdStart` state and the
list of fired actions, one entry per frame. -/
def holdRun (mode : AppMode) (hasSelection : Bool) (g : GestureType) :
    Option HoldStart → List ℕ → Option HoldStart × List (Option HoldAction)
  | hs, [] => (hs, [])
  | hs, t :: ts =>
    let step := holdTick mode hasSelection hs g t
    let rest := holdRun mode hasSelection g step.1 ts
    (rest.1, step.2 :: rest.2)

/-! ### Claim C2 -/

/-- C2: while the same qualifying candidate trigger is sustained, the
hold timer (a) seeds on its first frame without firing, (b) fires
nothing and keeps the start time while elapsed < 1000 ms — in
particular a whole run of frames below 1000 ms elapsed fires nothing —
(c) at a frame with elapsed ≥ 1000 ms fires the candidate action exactly
once and clears the timer, and (d) a tick from a cleared timer never
fires, so the frame immediately following a fire cannot re-fire. -/
theorem holdTimer_debounce (mode : AppMode) (hasSelection : Bool)
    (g : GestureType) (a : HoldAction)
    (hcand : currentTarget g mode hasSelection = some a)
    (t0 : ℕ) :
    holdTick mode hasSelection none g t0 = (some ⟨g, t0⟩, none) ∧
    (∀ t, t - t0 < HOLD_DURATION →
      holdTick mode hasSelection (some ⟨g, t0⟩) g t = (some ⟨g, t0⟩, none)) ∧
    (∀ t, HOLD_DURATION ≤ t - t0 →
      holdTick mode hasSelection (some ⟨g, t0⟩) g t = (none, some a)) ∧
    (∀ ts : List ℕ, (∀ t ∈ ts, t - t0 < HOLD_DURATION) →
      holdRun mode hasSelection g (some ⟨g, t0⟩) ts =
        (some ⟨g, t0⟩, ts.map (fun _ => none))) ∧
    (∀ t, (holdTick mode hasSelection none g t).2 = none) := by
  have seed : ∀ t, holdTick mode hasSelection none g t = (some ⟨g, t⟩, none) := by
    intro t
    unfold holdTick
    rw [hcand]
  have short : ∀ t, t - t0 < HOLD_DURATION →
      holdTick mode hasSelection (some ⟨g, t0⟩) g t = (some ⟨g, t0⟩, none) := by
    intro t ht
    unfold holdTick
    rw [hcand]
    simp [Nat.not_le.mpr ht]
  refine ⟨seed t0, short, ?_, ?_, ?_⟩
  · intro t ht
    unfold holdTick
    rw [hcand]
    simp [Nat.not_lt.mpr ht]
  · intro ts hts
    induction ts with
    | nil => rfl
    | cons t ts ih =>
      have h1 := short t (hts t (List.mem_cons_self t ts))
      have h2 := ih (fun u hu => hts u (List.mem_cons_of_mem t hu))
      simp [holdRun, h1, h2]
  · intro t
    rw [seed t]

/-- Witness for C2: SHAKA in VIEW mode with no selection qualifies as a
CANCEL candidate; seeding at t=0, a tick at t=999 does not fire, a tick
at t=1000 fires CANCEL and clears, and a tick from the cleared state
does not fire. -/
theorem holdTimer_debounce_witness :
    holdTick .view false none .shaka 0 = (some ⟨.shaka, 0⟩, none) ∧
    holdTick .view false (some ⟨.shaka, 0⟩) .shaka 999 =
      (some ⟨.shaka, 0⟩, none) ∧
    holdTick .view false (some ⟨.shaka, 0⟩) .shaka 1000 =
      (none, some .cancel) ∧
    (holdTick .view false none .shaka 1000).2 = none := by
  have h := holdTimer_debounce .view false .shaka .cancel (by rfl) 0
  exact ⟨h.1, h.2.1 999 (by norm_num [HOLD_DURATION]),
    h.2.2.1 1000 (by norm_num [HOLD_DURATION]), h.2.2.2.2 1000⟩

/-! ## Radial sector mapper (`App.tsx`, radial menu interaction) -/

/-- The five radial sectors. -/
inductive RadialSector where
  | move
  | rotate
  | scale
  | color
  | delete
deriving DecidableEq, Repr

/-- `clockDeg`: the raw `atan2` angle in degrees rotated by +90 so 0 is
at the top, then normalized by adding 360 when negative. -/
def clockDegOf (deg : ℚ) : ℚ :=
  if deg + 90 < 0 then deg + 90 + 360 else deg + 90

/-- The sector classification chain of `App.tsx` on the normalized clock
degree (5 slices of 72 degrees, first slice centered on the top). -/
def sectorOfClockDeg (c : ℚ) : Option RadialSector :=
  if c ≥ 324 ∨ c < 36 then some .move
  else if 36 ≤ c ∧ c < 108 then some .rotate
  else if 108 ≤ c ∧ c < 180 then some .scale
  else if 180 ≤ c ∧ c < 252 then some .color
  else if 252 ≤ c ∧ c < 324 then some .delete
  else none

/-- The radial-menu sector computation of `App.tsx`: screen coordinates
from the normalized cursor `(x, y)` against viewport `(w, h)`, vector
from the viewport center, dead zone of 50 px (squared comparison, since
the source compares `Math.sqrt(dx*dx+dy*dy) > 50`), then the clock-degree
classification.  `deg` is `Math.atan2(dy, dx) * 180 / Math.PI`, the one
external math-library value, supplied as an input. -/
def radialSectorAt (x y w h deg : ℚ) : Option RadialSector :=
  let screenX := (x + 1) / 2 * w
  let screenY := (1 - y) / 2 * h
  let dx := screenX - w / 2
  let dy := screenY - h / 2
  if dx ^ 2 + dy ^ 2 > 50 ^ 2 then sectorOfClockDeg (clockDegOf deg) else none

/-- Spec-side sector table of claim C5, written exactly as the claim's
intervals on the normalized clock degree. -/
def sectorSpec (c : ℚ) : Option RadialSector :=
  if (324 ≤ c ∧ c < 360) ∨ (0 ≤ c ∧ c < 36) then some .move
  else if 36 ≤ c ∧ c < 108 then some .rotate
  else if 108 ≤ c ∧ c < 180 then some .scale
  else if 180 ≤ c ∧ c < 252 then some .color
  else if 252 ≤ c ∧ c < 324 then some .delete
  else none

/-! ### Claim C5 -/

/-- C5: in Radial mode, a cursor within 50 px of the viewport center
selects no sector; otherwise the clock degree (raw `atan2` degrees
rotated by +90) lands in [0, 360) and the selected sector follows the
claim's interval table — with, in particular, clock degree 0 mapping to
Move, 36 to Rotate, 108 to Scale, 180 to Color and 252 to Delete. -/
theorem radial_sector_mapping (x y w h deg : ℚ) :
    (((x + 1) / 2 * w - w / 2) ^ 2 + ((1 - y) / 2 * h - h / 2) ^ 2 ≤ 50 ^ 2 →
      radialSectorAt x y w h deg = none) ∧
    (-180 < deg → deg ≤ 180 →
      0 ≤ clockDegOf deg ∧ clockDegOf deg < 360 ∧
      sectorOfClockDeg (clockDegOf deg) = sectorSpec (clockDegOf deg)) ∧
    sectorOfClockDeg 0 = some .move ∧
    sectorOfClockDeg 36 = some .rotate ∧
    sectorOfClockDeg 108 = some .scale ∧
    sectorOfClockDeg 180 = some .color ∧
    sectorOfClockDeg 252 = some .delete := by
  refine ⟨?_, ?_, by norm_num [sectorOfClockDeg], by norm_num [sectorOfClockDeg],
    by norm_num [sectorOfClockDeg], by norm_num [sectorOfClockDeg],
    by norm_num [sectorOfClockDeg]⟩
  · intro hdist
    unfold radialSectorAt
    exact if_neg (not_lt.mpr hdist)
  · intro hlo hhi
    have hrange : 0 ≤ clockDegOf deg ∧ clockDegOf deg < 360 := by
      unfold clockDegOf
      split
      · constructor <;> linarith
      · constructor <;> linarith [not_lt.mp (by assumption : ¬ deg + 90 < 0)]
    refine ⟨hrange.1, hrange.2, ?_⟩
    unfold sectorOfClockDeg sectorSpec
    rcases hrange with ⟨h0, h360⟩
    by_cases hA : 324 ≤ clockDegOf deg
    · rw [if_pos (Or.inl hA), if_pos (Or.inl ⟨hA, h360⟩)]
    · by_cases hB : clockDegOf deg < 36
      · rw [if_pos (Or.inr hB), if_pos (Or.inr ⟨h0, hB⟩)]
      · rw [if_neg (not_or.mpr ⟨hA, hB⟩),
          if_neg (not_or.mpr ⟨fun h => hA h.1, fun h => hB h.2⟩)]

/-- Witness for C5: at the viewport center (x = y = 0 against a
1000×1000 viewport) the distance is 0 ≤ 50 so no sector is selected, and
an angle of −90 raw degrees (clock degree 0) selects Move. -/
theorem radial_sector_mapping_witness :
    radialSectorAt 0 0 1000 1000 (-90) = none ∧
    (0 ≤ clockDegOf (-90) ∧ clockDegOf (-90) < 360 ∧
      sectorOfClockDeg (clockDegOf (-90)) = sectorSpec (clockDegOf (-90))) := by
  constructor
  · exact (radial_sector_mapping 0 0 1000 1000 (-90)).1 (by norm_num)
  · exact (radial_sector_mapping 0 0 1000 1000 (-90)).2.1
      (by norm_num) (by norm_num)

/-! ## Hand frames and the gesture-settings gate (`App.tsx`) -/

/-- `HandData` from `types.ts`.  `pinchDistance` carries the squared
distance, per the embedding convention. -/
structure HandData where
  x : ℚ
  y : ℚ
  gesture : GestureType
  pinchDistance : ℚ
  isPinching : Bool
deriving DecidableEq, Repr

/-- `handleHandUpdate` from `App.tsx`, as the function from the incoming
frame to the frame stored in `handData` state.  `settings` models the
`gestureSettings` record: a JS map lookup yielding `some b` for present
keys and `none` for absent ones; the source's `=== false` test is
`settings g = some false`. -/
def handleHandUpdate (settings : GestureType → Option Bool)
    (data : Option HandData) : Option HandData :=
  match data with
  | Option.none => Option.none
  | some d =>
    if d.gesture ≠ GestureType.none ∧ d.gesture ≠ .shaka ∧ d.gesture ≠ .rock
        ∧ settings d.gesture = some false then
      some { d with gesture := GestureType.none }
    else
      some d

/-! ### Claim C9 -/

/-- C9: a frame whose gesture is marked inactive in the settings (and is
not Shaka or Rock) is downgraded to gesture None with every other field
unchanged — the downgrade equation also covers a frame already tagged
None, where it is the identity — and a frame whose gesture is Shaka or
Rock passes through intact regardless of the settings. -/
theorem handleHandUpdate_gate (settings : GestureType → Option Bool)
    (d : HandData) :
    (settings d.gesture = some false → d.gesture ≠ .shaka →
      d.gesture ≠ .rock →
      handleHandUpdate settings (some d) =
        some { d with gesture := GestureType.none }) ∧
    (d.gesture = .shaka ∨ d.gesture = .rock →
      handleHandUpdate settings (some d) = some d) := by
  constructor
  · intro hs hsh hro
    cases d with
    | mk x y g pd ip =>
      by_cases hn : g = GestureType.none
      · subst hn
        simp [handleHandUpdate]
      · simp only [HandData.gesture] at hs hsh hro
        simp [handleHandUpdate, hn, hsh, hro, hs]
  · intro h
    cases d with
    | mk x y g pd ip =>
      simp only [HandData.gesture] at h
      rcases h with h | h <;> subst h <;> simp [handleHandUpdate]

/-- Witness for C9: with THREE_FINGERS disabled in the settings, a
THREE_FINGERS frame is downgraded to None, and a SHAKA frame passes
through even if the settings map carried `false` for SHAKA. -/
theorem handleHandUpdate_gate_witness :
    handleHandUpdate (fun _ => some false)
        (some ⟨0, 0, .threeFingers, 1, false⟩) =
      some ⟨0, 0, GestureType.none, 1, false⟩ ∧
    handleHandUpdate (fun _ => some false)
        (some ⟨0, 0, .shaka, 1, false⟩) =
      some ⟨0, 0, .shaka, 1, false⟩ :=
  ⟨(handleHandUpdate_gate (fun _ => some false)
      ⟨0, 0, .threeFingers, 1, false⟩).1 rfl (by simp) (by simp),
   (handleHandUpdate_gate (fun _ => some false)
      ⟨0, 0, .shaka, 1, false⟩).2 (Or.inl rfl)⟩

/-! ## Vectors, colours and scene objects -/

/-- A 3-vector of rationals (THREE.Vector3 / Euler triples / `[x,y,z]`
tuples of `SceneObject`). -/
structure Vec3 where
  x : ℚ
  y : ℚ
  z : ℚ
deriving DecidableEq, Repr

instance : Add Vec3 := ⟨fun a b => ⟨a.x + b.x, a.y + b.y, a.z + b.z⟩⟩

instance : Sub Vec3 := ⟨fun a b => ⟨a.x - b.x, a.y - b.y, a.z - b.z⟩⟩

instance : SMul ℚ Vec3 := ⟨fun c v => ⟨c * v.x, c * v.y, c * v.z⟩⟩

theorem Vec3.add_def (a b : Vec3) :
    a + b = ⟨a.x + b.x, a.y + b.y, a.z + b.z⟩ := rfl

theorem Vec3.sub_def (a b : Vec3) :
    a - b = ⟨a.x - b.x, a.y - b.y, a.z - b.z⟩ := rfl

theorem Vec3.smul_def (c : ℚ) (v : Vec3) :
    c • v = ⟨c * v.x, c * v.y, c * v.z⟩ := rfl

/-- THREE.Vector3.lerp: `a.lerp(b, t) = a + (b - a) * t`. -/
def lerpVec (a b : Vec3) (t : ℚ) : Vec3 := a + t • (b - a)

/-- A colour as hue/saturation/lightness, the representation the
`InteractionManager` works with (`getHSL` / `setHSL`); the store's hex
string is modelled as this triple. -/
structure HSL where
  h : ℚ
  s : ℚ
  l : ℚ
deriving DecidableEq, Repr

/-- The shape tags of `SceneObject.type`. -/
inductive ShapeType where
  | box
  | sphere
  | torus
  | cone
deriving DecidableEq, Repr

/-- `SceneObject` from `types.ts` (the external store's records). -/
structure SceneObject where
  id : String
  type : ShapeType
  position : Vec3
  rotation : Vec3
  scale : Vec3
  color : HSL
deriving DecidableEq, Repr

/-- A live THREE scene-graph object as the `InteractionManager` mutates
it: position, Euler rotation, scale, and the material colour in HSL.
Every object addressed by name in the scene is a mesh with a
`MeshStandardMaterial` (see the object rendering in `Scene3D`), so the
source's `instanceof` guards always hold and are not modelled. -/
structure LiveObject where
  pos : Vec3
  rot : Vec3
  scl : Vec3
  colorHSL : HSL
deriving DecidableEq, Repr

/-- `scene.getObjectByName`: first entry with the given name. -/
def lookupObj : List (String × LiveObject) → String → Option LiveObject
  | [], _ => Option.none
  | e :: rest, id => if e.1 = id then some e.2 else lookupObj rest id

/-- In-place mutation of the named scene object. -/
def modifyObj (f : LiveObject → LiveObject) :
    List (String × LiveObject) → String → List (String × LiveObject)
  | [], _ => []
  | e :: rest, id =>
    if e.1 = id then (e.1, f e.2) :: rest else e :: modifyObj f rest id

theorem lookupObj_modifyObj (f : LiveObject → LiveObject)
    (l : List (String × LiveObject)) (id : String) :
    lookupObj (modifyObj f l id) id = (lookupObj l id).map f := by
  induction l with
  | nil => rfl
  | cons e rest ih =>
    by_cases h : e.1 = id <;> simp [lookupObj, modifyObj, h, ih]

/-! ## The drag/transform controller (`Scene3D`, `InteractionManager`) -/

/-- The `dragRef` record of the `InteractionManager`. -/
structure DragState where
  isDragging : Bool
  targetId : Option String
  distanceToCamera : ℚ
  startCursorPos : Vec3
  startObjPos : Vec3
  startObjRot : Vec3
  startObjScale : Vec3
  startColorHSL : HSL
deriving DecidableEq, Repr

/-- The `prevHandPos` state: `{x, y, gestureWasPinch}`. -/
structure PrevHand where
  x : ℚ
  y : ℚ
  gestureWasPinch : Bool
deriving DecidableEq, Repr

/-- The per-frame state of the `InteractionManager`: `prevHandPos`,
`waitingForPinchRelease`, the `dragRef` record, the ghost preview's
position, and the live scene-graph objects addressable by name. -/
structure IMState where
  prevHandPos : Option PrevHand
  waitingForPinchRelease : Bool
  drag : DragState
  ghostPos : Vec3
  scene : List (String × LiveObject)
deriving DecidableEq, Repr

/-- The per-frame inputs of the `InteractionManager`'s `useFrame` body:
the mailbox hand frame (or `null`), the mode / transform-mode /
sensitivity props, and the two external math-library results — the
camera position with the normalized unprojected ray direction (THREE
`unproject` + `normalize`), and the raycaster's nearest valid hit as an
object name and distance. -/
structure FrameInput where
  hand : Option HandData
  mode : AppMode
  transformMode : TransformMode
  sensitivity : ℚ
  camPos : Vec3
  dir : Vec3
  hit : Option (String × ℚ)
deriving Repr

/-- A `Partial<SceneObject>` as passed to `onUpdateObject`: only the
fields present in the partial record. -/
structure SceneUpdate where
  position : Option Vec3
  rotation : Option Vec3
  scale : Option Vec3
  color : Option HSL
deriving DecidableEq, Repr

/-- The calls the `useFrame` body makes back into the app on one frame:
`onSelect`, `onUpdateObject` (id with the partial record), and
`onPlaceObject`. -/
structure FrameOutput where
  select : Option String
  update : Option (String × SceneUpdate)
  place : Option Vec3
deriving DecidableEq, Repr

/-- The silent frame output. -/
def noOutput : FrameOutput := ⟨Option.none, Option.none, Option.none⟩

/-- `prevHandPos?.gestureWasPinch || false`: whether the previous frame
was pinching. -/
def wasPinchOf (s : IMState) : Bool :=
  match s.prevHandPos with
  | some p => p.gestureWasPinch
  | Option.none => false

/-- Truncation toward zero, as JavaScript's `%` uses. -/
def jsTrunc (q : ℚ) : ℤ := if 0 ≤ q then ⌊q⌋ else ⌈q⌉

/-- JavaScript's `x % 1` (truncated remainder). -/
def jsMod1 (q : ℚ) : ℚ := q - (jsTrunc q : ℚ)

/-- The per-mode mutation of CASE B (DRAGGING) applied to the live
target object, given the drag anchors and `delta = cursorPos -
startCursorPos`:
* translate: `obj.position.copy(startObjPos).add(delta)`;
* rotate: x from `delta.y`, y from `delta.x`, each scaled by
  `2.0 * sensitivity`; z untouched;
* scale: uniform factor `1 + delta.y * (1.0 * sensitivity)` floored at
  0.1, applied to the snapshot scale;
* color: hue shifted by `delta.x * 0.5 * sensitivity` from the snapshot
  hue, wrapped by JS `% 1` plus a `+1` fixup when negative; saturation
  and lightness from the snapshot. -/
def applyDrag (tm : TransformMode) (sensitivity : ℚ) (d : DragState)
    (delta : Vec3) (obj : LiveObject) : LiveObject :=
  match tm with
  | .translate => { obj with pos := d.startObjPos + delta }
  | .rotate =>
      { obj with rot :=
          ⟨d.startObjRot.x + delta.y * (2 * sensitivity),
           d.startObjRot.y + delta.x * (2 * sensitivity),
           obj.rot.z⟩ }
  | .scale =>
      let factor := 1 + delta.y * (1 * sensitivity)
      let safeFactor := max (1/10) factor
      { obj with scl := safeFactor • d.startObjScale }
  | .color =>
      let rawH := d.startColorHSL.h + delta.x * (1/2) * sensitivity
      let m := jsMod1 rawH
      let hue := if m < 0 then m + 1 else m
      { obj with colorHSL := ⟨hue, d.startColorHSL.s, d.startColorHSL.l⟩ }

/-- The PLACING-mode ghost update: lerp toward the cursor by 0.2, then
snap y to 0.5 whenever |y| < 1
(`ghostRef.current.position.lerp(cursorPos, 0.2); if
(Math.abs(position.y) < 1) position.y = 0.5`). -/
def ghostUpdate (g c : Vec3) : Vec3 :=
  let gp := lerpVec g c (1 / 5)
  if |gp.y| < 1 then { gp with y := 1 / 2 } else gp

/-- The `useEffect` of the `InteractionManager` that runs when the
`mode` prop changes: entering PLACING arms `waitingForPinchRelease`,
entering any other mode clears it. -/
def onModeChange (s : IMState) (newMode : AppMode) : IMState :=
  { s with waitingForPinchRelease := decide (newMode = AppMode.placing) }

/-- One run of the `useFrame` body of the `InteractionManager`,
translated block for block from the source:

1. missing hand frame or a menu-family mode (MENU, RADIAL, HUB,
   SETTINGS) hides the visuals, clears `isDragging` and returns;
2. the cursor's world position is the camera position plus the ray
   direction scaled by the held drag depth (10 when not dragging);
3. in PLACING the ghost lerps toward the cursor by 0.2 and its y is
   snapped to 0.5 whenever |y| < 1;
4. while `waitingForPinchRelease`, only the release is tracked;
5. CASE A (pinch-down): in PLACING, place at the ghost; in EDIT/VIEW,
   select the raycast hit and open the drag session, snapshotting the
   hit object's pose and colour;
6. CASE B (while pinching with a session): mutate the live target from
   the snapshots and the cursor delta;
7. CASE C (pinch-up with a session): emit `onUpdateObject` with the
   live colour (colour mode) or the live pose (other modes) and close
   the session. -/
def imStep (s : IMState) (inp : FrameInput) : IMState × FrameOutput :=
  match inp.hand with
  | Option.none =>
      ({ s with drag := { s.drag with isDragging := false } }, noOutput)
  | some h =>
    if inp.mode = .menu ∨ inp.mode = .radial ∨ inp.mode = .hub
        ∨ inp.mode = .settings then
      ({ s with drag := { s.drag with isDragging := false } }, noOutput)
    else
      let projectionDistance :=
        if s.drag.isDragging then s.drag.distanceToCamera else 10
      let cursorPos := inp.camPos + projectionDistance • inp.dir
      let ghostPos :=
        if inp.mode = .placing then ghostUpdate s.ghostPos cursorPos
        else s.ghostPos
      if s.waitingForPinchRelease then
        ({ s with
            ghostPos := ghostPos,
            waitingForPinchRelease := h.isPinching,
            prevHandPos := some ⟨h.x, h.y, h.isPinching⟩ }, noOutput)
      else
        let wasPinching := wasPinchOf s
        let caseA : DragState × Option String × Option Vec3 :=
          if h.isPinching && !wasPinching then
            if inp.mode = .placing then
              (s.drag, Option.none, some ghostPos)
            else if inp.mode = .edit ∨ inp.mode = .view then
              match inp.hit with
              | some hit =>
                let d0 : DragState :=
                  { s.drag with
                      isDragging := true,
                      targetId := some hit.1,
                      distanceToCamera := hit.2,
                      startCursorPos := cursorPos }
                let d1 : DragState :=
                  match lookupObj s.scene hit.1 with
                  | some obj =>
                      { d0 with
                          startObjPos := obj.pos,
                          startObjRot := obj.rot,
                          startObjScale := obj.scl,
                          startColorHSL := obj.colorHSL }
                  | Option.none => d0
                (d1, some hit.1, Option.none)
              | Option.none => (s.drag, Option.none, Option.none)
            else (s.drag, Option.none, Option.none)
          else (s.drag, Option.none, Option.none)
        let drag1 := caseA.1
        let scene1 :=
          if h.isPinching && drag1.isDragging then
            match drag1.targetId with
            | some tid =>
              match lookupObj s.scene tid with
              | some _ =>
                  modifyObj
                    (applyDrag inp.transformMode inp.sensitivity drag1
                      (cursorPos - drag1.startCursorPos)) s.scene tid
              | Option.none => s.scene
            | Option.none => s.scene
          else s.scene
        let caseC : DragState × Option (String × SceneUpdate) :=
          if !h.isPinching && wasPinching && drag1.isDragging then
            let upd : Option (String × SceneUpdate) :=
              match drag1.targetId with
              | some tid =>
                match lookupObj scene1 tid with
                | some obj =>
                  if inp.transformMode = .color then
                    some (tid,
                      ⟨Option.none, Option.none, Option.none, some obj.colorHSL⟩)
                  else
                    some (tid,
                      ⟨some obj.pos, some obj.rot, some obj.scl, Option.none⟩)
                | Option.none => Option.none
              | Option.none => Option.none
            ({ drag1 with isDragging := false, targetId := Option.none }, upd)
          else (drag1, Option.none)
        ({ s with
            prevHandPos := some ⟨h.x, h.y, h.isPinching⟩,
            drag := caseC.1,
            ghostPos := ghostPos,
            scene := scene1 },
         ⟨caseA.2.1, caseC.2, caseA.2.2⟩)

/-- `imStep` iterated over a list of frames, collecting the outputs. -/
def imRun (s : IMState) : List FrameInput → IMState × List FrameOutput
  | [] => (s, [])
  | inp :: rest =>
    let step := imStep s inp
    let next := imRun step.1 rest
    (next.1, step.2 :: next.2)

/-! ## Store-side helpers (`App.tsx`) -/

/-- `handleUpdateObject`'s merge of a partial update into one record
(the JS spread `{...obj, ...updates}`). -/
def applySceneUpdate (obj : SceneObject) (u : SceneUpdate) : SceneObject :=
  { obj with
      position := u.position.getD obj.position,
      rotation := u.rotation.getD obj.rotation,
      scale := u.scale.getD obj.scale,
      color := u.color.getD obj.color }

/-- `handleUpdateObject` from `App.tsx`. -/
def handleUpdateObject (objects : List SceneObject) (id : String)
    (u : SceneUpdate) : List SceneObject :=
  objects.map (fun o => if o.id = id then applySceneUpdate o u else o)

/-- White, the colour of newly placed objects (`#ffffff` as HSL). -/
def whiteHSL : HSL := ⟨0, 0, 1⟩

/-- The new object built by `handlePlaceObject` (the fresh id from
`Date.now()` is a parameter). -/
def mkPlacedObject (newId : String) (t : ShapeType) (position : Vec3) :
    SceneObject :=
  ⟨newId, t, position, ⟨0, 0, 0⟩, ⟨1, 1, 1⟩, whiteHSL⟩

/-- `handlePlaceObject` from `App.tsx`: a no-op without a pending object
type, otherwise appends the new object at the given position. -/
def handlePlaceObject (pendingObjectType : Option ShapeType)
    (newId : String) (position : Vec3) (objects : List SceneObject) :
    List SceneObject :=
  match pendingObjectType with
  | Option.none => objects
  | some t => objects ++ [mkPlacedObject newId t position]

/-- Applying one frame output's `onUpdateObject` call (if any) to the
external store. -/
def applyUpdateOutput (objects : List SceneObject) (o : FrameOutput) :
    List SceneObject :=
  match o.update with
  | some u => handleUpdateObject objects u.1 u.2
  | Option.none => objects

/-! ### Claim C4 -/

/-- A mid-drag controller state used to exercise the mode-change
behaviour: an active session on `"cube-1"` (anchored at depth 5 with all
snapshots taken), previous frame pinching, one live object. -/
def midDragExample : IMState where
  prevHandPos := some ⟨0, 0, true⟩
  waitingForPinchRelease := false
  drag :=
    { isDragging := true
      targetId := some "cube-1"
      distanceToCamera := 5
      startCursorPos := ⟨0, 0, 10⟩
      startObjPos := ⟨0, 0, 0⟩
      startObjRot := ⟨0, 0, 0⟩
      startObjScale := ⟨1, 1, 1⟩
      startColorHSL := ⟨0, 0, 0⟩ }
  ghostPos := ⟨0, 0, 0⟩
  scene := [("cube-1", ⟨⟨0, 0, 0⟩, ⟨0, 0, 0⟩, ⟨1, 1, 1⟩, ⟨0, 0, 0⟩⟩)]

/-- Counterexample for C4 as stated: PLACING is a mode outside
{View, Edit}, yet a frame in PLACING mode (reached mid-drag, so the
mode-change effect has armed the pinch-release wait) does not discard
the active session — `isDragging` is still true after the step. -/
theorem drag_survives_placing_mode :
    (imStep (onModeChange midDragExample .placing)
        ⟨some ⟨0, 0, .pinch, 0, true⟩, .placing, .translate, 1,
          ⟨0, 0, 0⟩, ⟨0, 0, 1⟩, Option.none⟩).1.drag.isDragging = true := by
  simp [imStep, onModeChange, midDragExample, noOutput]

/-- C4 (amended): if the mode prop changes to one of {Menu, Radial, Hub,
Settings} while a session is active, the frame discards the session
(`isDragging` cleared) and makes no call into the store — no
`onUpdateObject`, no `onPlaceObject`, live scene untouched — so the
store's entry for the drag target keeps its pre-drag committed state.
(A change to Placing does not discard the session; see the
counterexample.) -/
theorem drag_discarded_on_menu_modes (s : IMState) (inp : FrameInput)
    (hmode : inp.mode = .menu ∨ inp.mode = .radial ∨ inp.mode = .hub
      ∨ inp.mode = .settings) :
    (imStep s inp).1.drag.isDragging = false ∧
    (imStep s inp).2.update = Option.none ∧
    (imStep s inp).2.place = Option.none ∧
    (imStep s inp).1.scene = s.scene ∧
    ∀ objects : List SceneObject,
      applyUpdateOutput objects (imStep s inp).2 = objects := by
  cases hh : inp.hand with
  | none =>
    simp [imStep, hh, noOutput, applyUpdateOutput]
  | some h =>
    rcases hmode with hm | hm | hm | hm <;>
      simp [imStep, hh, hm, noOutput, applyUpdateOutput]

/-- Witness for C4 (amended): from the concrete mid-drag state, a frame
whose mode prop is MENU clears the session and leaves any store
untouched. -/
theorem drag_discarded_on_menu_modes_witness :
    (imStep midDragExample
        ⟨some ⟨0, 0, .pinch, 0, true⟩, .menu, .translate, 1,
          ⟨0, 0, 0⟩, ⟨0, 0, 1⟩, Option.none⟩).1.drag.isDragging = false ∧
    ∀ objects : List SceneObject,
      applyUpdateOutput objects
        (imStep midDragExample
          ⟨some ⟨0, 0, .pinch, 0, true⟩, .menu, .translate, 1,
            ⟨0, 0, 0⟩, ⟨0, 0, 1⟩, Option.none⟩).2 = objects := by
  have h := drag_discarded_on_menu_modes midDragExample
    ⟨some ⟨0, 0, .pinch, 0, true⟩, .menu, .translate, 1,
      ⟨0, 0, 0⟩, ⟨0, 0, 1⟩, Option.none⟩ (Or.inl rfl)
  exact ⟨h.1, h.2.2.2.2⟩

/-! ### Claim C3 -/

/-- Counterexample for C3 as stated: when the hand frame becomes null
mid-drag, the source sets `dragRef.current.isDragging = false` — the
session is destroyed, not suspended — and when a hand frame reappears
not pinching, the commit path does not run (no `onUpdateObject` call is
made), rather than "running normally and writing the live pose". -/
theorem drag_destroyed_on_hand_loss :
    (imStep midDragExample
        ⟨Option.none, .edit, .translate, 1, ⟨0, 0, 0⟩, ⟨0, 0, 1⟩,
          Option.none⟩).1.drag.isDragging = false ∧
    (imStep
        (imStep midDragExample
          ⟨Option.none, .edit, .translate, 1, ⟨0, 0, 0⟩, ⟨0, 0, 1⟩,
            Option.none⟩).1
        ⟨some ⟨0, 0, GestureType.none, 1, false⟩, .edit, .translate, 1,
          ⟨0, 0, 0⟩, ⟨0, 0, 1⟩, Option.none⟩).2.update = Option.none := by
  constructor
  · simp [imStep, midDragExample, noOutput]
  · simp [imStep, midDragExample, noOutput, wasPinchOf]

/-- C3 (amended): a null hand frame terminates an active drag session on
the spot — `isDragging` is cleared with no store write, the live scene
and `prevHandPos` untouched — and afterwards, with the session inactive
and the stale `prevHandPos` still recording a pinch, a reappearing hand
frame (pinching or not) neither resumes the drag (the live scene is not
mutated, the session stays inactive) nor commits (no `onUpdateObject`
and no `onPlaceObject` call), leaving the store at its pre-drag state. -/
theorem drag_terminated_on_hand_loss (s : IMState) (inp : FrameInput)
    (hnull : inp.hand = Option.none) :
    ((imStep s inp).1.drag.isDragging = false ∧
     (imStep s inp).1.scene = s.scene ∧
     (imStep s inp).1.prevHandPos = s.prevHandPos ∧
     (imStep s inp).2 = noOutput) ∧
    (∀ (s2 : IMState) (inp2 : FrameInput) (h : HandData),
      inp2.hand = some h →
      s2.drag.isDragging = false →
      wasPinchOf s2 = true →
      (imStep s2 inp2).1.drag.isDragging = false ∧
      (imStep s2 inp2).1.scene = s2.scene ∧
      (imStep s2 inp2).2.update = Option.none ∧
      (imStep s2 inp2).2.place = Option.none) := by
  constructor
  · simp [imStep, hnull, noOutput]
  · intro s2 inp2 h hh hnd hwas
    by_cases hmode : inp2.mode = .menu ∨ inp2.mode = .radial
        ∨ inp2.mode = .hub ∨ inp2.mode = .settings
    · simp [imStep, hh, hmode, noOutput]
    · cases hw : s2.waitingForPinchRelease
      · cases hp : h.isPinching <;>
          simp [imStep, hh, hmode, hw, hwas, hp, hnd, noOutput]
      · simp [imStep, hh, hmode, hw, hnd, noOutput]

/-- Witness for C3 (amended): the null frame applied to the concrete
mid-drag state clears the session without output, and the follow-up
frame with a non-pinching hand emits no store update. -/
theorem drag_terminated_on_hand_loss_witness :
    ((imStep midDragExample
        ⟨Option.none, .edit, .translate, 1, ⟨0, 0, 0⟩, ⟨0, 0, 1⟩,
          Option.none⟩).1.drag.isDragging = false ∧
     (imStep midDragExample
        ⟨Option.none, .edit, .translate, 1, ⟨0, 0, 0⟩, ⟨0, 0, 1⟩,
          Option.none⟩).2 = noOutput) ∧
    (imStep
        (imStep midDragExample
          ⟨Option.none, .edit, .translate, 1, ⟨0, 0, 0⟩, ⟨0, 0, 1⟩,
            Option.none⟩).1
        ⟨some ⟨0, 0, GestureType.none, 1, false⟩, .edit, .translate, 1,
          ⟨0, 0, 0⟩, ⟨0, 0, 1⟩, Option.none⟩).2.update = Option.none := by
  have h1 := drag_terminated_on_hand_loss midDragExample
    ⟨Option.none, .edit, .translate, 1, ⟨0, 0, 0⟩, ⟨0, 0, 1⟩, Option.none⟩ rfl
  refine ⟨⟨h1.1.1, h1.1.2.2.2⟩, ?_⟩
  have h2 := h1.2
    (imStep midDragExample
      ⟨Option.none, .edit, .translate, 1, ⟨0, 0, 0⟩, ⟨0, 0, 1⟩,
        Option.none⟩).1
    ⟨some ⟨0, 0, GestureType.none, 1, false⟩, .edit, .translate, 1,
      ⟨0, 0, 0⟩, ⟨0, 0, 1⟩, Option.none⟩
    ⟨0, 0, GestureType.none, 1, false⟩ rfl h1.1.1
    (by unfold wasPinchOf; rw [h1.1.2.2.1]; rfl)
  exact h2.2.2.1

/-! ### Claim C8 -/

/-- An idle controller state sitting in PLACING with the ghost at the
origin and a non-pinching previous frame. -/
def placingIdleExample : IMState where
  prevHandPos := some ⟨0, 0, false⟩
  waitingForPinchRelease := false
  drag :=
    { isDragging := false
      targetId := Option.none
      distanceToCamera := 10
      startCursorPos := ⟨0, 0, 0⟩
      startObjPos := ⟨0, 0, 0⟩
      startObjRot := ⟨0, 0, 0⟩
      startObjScale := ⟨1, 1, 1⟩
      startColorHSL := ⟨0, 0, 0⟩ }
  ghostPos := ⟨0, 0, 0⟩
  scene := []

/-- Counterexample for C8 as stated: after the clamp the preview's
vertical coordinate is 0.5, which IS closer than 1 unit to ground level
— so "never closer than 1 unit to ground" fails on the very frame the
clamp fires.  (Ghost at the origin, cursor ray degenerate at the camera:
the lerped y is 0, |0| < 1, so y is set to 0.5.) -/
theorem placing_preview_below_one_unit :
    (imStep placingIdleExample
        ⟨some ⟨0, 0, GestureType.none, 1, false⟩, .placing, .translate, 1,
          ⟨0, 0, 0⟩, ⟨0, 0, 0⟩, Option.none⟩).1.ghostPos.y = 1 / 2 ∧
    |(imStep placingIdleExample
        ⟨some ⟨0, 0, GestureType.none, 1, false⟩, .placing, .translate, 1,
          ⟨0, 0, 0⟩, ⟨0, 0, 0⟩, Option.none⟩).1.ghostPos.y| < 1 := by
  constructor <;>
    · simp [imStep, placingIdleExample, noOutput, wasPinchOf, ghostUpdate,
        lerpVec, Vec3.add_def, Vec3.sub_def, Vec3.smul_def]
      all_goals norm_num [abs_lt]

/-- C8 (amended): while mode is Placing, after the per-frame update the
preview's vertical coordinate either has |y| ≥ 1 or is exactly 0.5
(whenever the lerped position would have |y| < 1 it is set to 0.5); a
pinch-down (with the release-wait disarmed) commits the preview's
clamped position through `onPlaceObject`, and the object
`handlePlaceObject` creates carries exactly that position. -/
theorem placing_ghost_clamp (s : IMState) (inp : FrameInput) (h : HandData)
    (hh : inp.hand = some h) (hm : inp.mode = .placing) :
    (|(imStep s inp).1.ghostPos.y| ≥ 1 ∨ (imStep s inp).1.ghostPos.y = 1 / 2) ∧
    (s.waitingForPinchRelease = false → h.isPinching = true →
      wasPinchOf s = false →
      (imStep s inp).2.place = some (imStep s inp).1.ghostPos) ∧
    (∀ (newId : String) (t : ShapeType) (p : Vec3)
        (objects : List SceneObject),
      handlePlaceObject (some t) newId p objects =
        objects ++ [mkPlacedObject newId t p] ∧
      (mkPlacedObject newId t p).position = p) := by
  have hg : ∀ g c : Vec3,
      |(ghostUpdate g c).y| ≥ 1 ∨ (ghostUpdate g c).y = 1 / 2 := by
    intro g c
    unfold ghostUpdate
    dsimp only
    split
    · right
      rfl
    · left
      exact le_of_not_lt (by assumption)
  have hghost : (imStep s inp).1.ghostPos =
      ghostUpdate s.ghostPos (inp.camPos +
        (if s.drag.isDragging then s.drag.distanceToCamera else (10 : ℚ))
          • inp.dir) := by
    cases hw : s.waitingForPinchRelease <;> simp [imStep, hh, hm, hw]
  refine ⟨?_, ?_, fun newId t p objects => ⟨rfl, rfl⟩⟩
  · rw [hghost]
    exact hg _ _
  · intro hw hp hwas
    rw [hghost]
    simp [imStep, hh, hm, hw, hp, hwas]

/-- A pinch-down frame in PLACING with a degenerate cursor ray, used to
instantiate the clamp-and-commit theorem. -/
def placingPinchInput : FrameInput :=
  ⟨some ⟨0, 0, .pinch, 0, true⟩, .placing, .translate, 1,
    ⟨0, 0, 0⟩, ⟨0, 0, 0⟩, Option.none⟩

/-- Witness for C8 (amended): at the concrete PLACING state, the updated
preview y is clamped (|y| ≥ 1 or y = 0.5) and the pinch-down commits the
preview position through `onPlaceObject`. -/
theorem placing_ghost_clamp_witness :
    (|(imStep placingIdleExample placingPinchInput).1.ghostPos.y| ≥ 1 ∨
      (imStep placingIdleExample placingPinchInput).1.ghostPos.y = 1 / 2) ∧
    (imStep placingIdleExample placingPinchInput).2.place =
      some (imStep placingIdleExample placingPinchInput).1.ghostPos := by
  have h := placing_ghost_clamp placingIdleExample placingPinchInput
    ⟨0, 0, .pinch, 0, true⟩ rfl rfl
  exact ⟨h.1, h.2.1 rfl rfl rfl⟩

/-! ### Claim C10 -/

/-- C10: a pinch-up commit with a transform mode other than `color`
emits an update holding exactly the three pose fields — position,
rotation and scale, all read from the live object, color absent — and a
commit in `color` mode emits an update holding only the color field;
merging a color-only update into a store record leaves its position,
rotation and scale unchanged. -/
theorem commit_update_fields (s : IMState) (inp : FrameInput)
    (h : HandData) (tid : String) (obj : LiveObject)
    (hh : inp.hand = some h)
    (hguard : ¬(inp.mode = .menu ∨ inp.mode = .radial ∨ inp.mode = .hub
      ∨ inp.mode = .settings))
    (hw : s.waitingForPinchRelease = false)
    (hp : h.isPinching = false)
    (hwas : wasPinchOf s = true)
    (hd : s.drag.isDragging = true)
    (ht : s.drag.targetId = some tid)
    (hobj : lookupObj s.scene tid = some obj) :
    (inp.transformMode ≠ .color →
      (imStep s inp).2.update = some (tid,
        ⟨some obj.pos, some obj.rot, some obj.scl, Option.none⟩)) ∧
    (inp.transformMode = .color →
      (imStep s inp).2.update = some (tid,
        ⟨Option.none, Option.none, Option.none, some obj.colorHSL⟩)) ∧
    (∀ (so : SceneObject) (c : HSL),
      (applySceneUpdate so ⟨Option.none, Option.none, Option.none, some c⟩).position
          = so.position ∧
      (applySceneUpdate so ⟨Option.none, Option.none, Option.none, some c⟩).rotation
          = so.rotation ∧
      (applySceneUpdate so ⟨Option.none, Option.none, Option.none, some c⟩).scale
          = so.scale) := by
  refine ⟨?_, ?_, fun so c => ⟨rfl, rfl, rfl⟩⟩
  · intro htm
    simp [imStep, hh, hguard, hw, hp, hwas, hd, ht, hobj, htm]
  · intro htm
    simp [imStep, hh, hguard, hw, hp, hwas, hd, ht, hobj, htm]

/-- Witness for C10: from the concrete mid-drag state, a pinch-up in
translate mode commits exactly position/rotation/scale of the live
object, and the same pinch-up in color mode commits only the colour. -/
theorem commit_update_fields_witness :
    (imStep midDragExample
        ⟨some ⟨0, 0, GestureType.none, 1, false⟩, .edit, .translate, 1,
          ⟨0, 0, 0⟩, ⟨0, 0, 1⟩, Option.none⟩).2.update =
      some ("cube-1",
        ⟨some ⟨0, 0, 0⟩, some ⟨0, 0, 0⟩, some ⟨1, 1, 1⟩, Option.none⟩) ∧
    (imStep midDragExample
        ⟨some ⟨0, 0, GestureType.none, 1, false⟩, .edit, .color, 1,
          ⟨0, 0, 0⟩, ⟨0, 0, 1⟩, Option.none⟩).2.update =
      some ("cube-1",
        ⟨Option.none, Option.none, Option.none, some ⟨0, 0, 0⟩⟩) := by
  constructor
  · exact (commit_update_fields midDragExample
      ⟨some ⟨0, 0, GestureType.none, 1, false⟩, .edit, .translate, 1,
        ⟨0, 0, 0⟩, ⟨0, 0, 1⟩, Option.none⟩
      ⟨0, 0, GestureType.none, 1, false⟩ "cube-1"
      ⟨⟨0, 0, 0⟩, ⟨0, 0, 0⟩, ⟨1, 1, 1⟩, ⟨0, 0, 0⟩⟩
      rfl (by simp) rfl rfl rfl rfl rfl rfl).1 (by simp)
  · exact (commit_update_fields midDragExample
      ⟨some ⟨0, 0, GestureType.none, 1, false⟩, .edit, .color, 1,
        ⟨0, 0, 0⟩, ⟨0, 0, 1⟩, Option.none⟩
      ⟨0, 0, GestureType.none, 1, false⟩ "cube-1"
      ⟨⟨0, 0, 0⟩, ⟨0, 0, 0⟩, ⟨1, 1, 1⟩, ⟨0, 0, 0⟩⟩
      rfl (by simp) rfl rfl rfl rfl rfl rfl).2.1 rfl

/-! ### Claim C6 -/

/-- One sustained dragging frame: the hand's normalized position and the
frame's camera position / unprojected ray direction. -/
structure DragFrame where
  hx : ℚ
  hy : ℚ
  camPos : Vec3
  dir : Vec3
deriving Repr

/-- The `FrameInput` of a sustained dragging frame: a pinching hand,
fixed mode / transform mode / sensitivity, no raycast consulted. -/
def toDragInput (m : AppMode) (tm : TransformMode) (sens : ℚ)
    (e : DragFrame) : FrameInput :=
  ⟨some ⟨e.hx, e.hy, .pinch, 0, true⟩, m, tm, sens, e.camPos, e.dir,
    Option.none⟩

/-- The cursor's world position on a dragging frame at session depth
`hd` (step 1 of the `useFrame` body with `isDragging` true). -/
def dragCursor (hd : ℚ) (e : DragFrame) : Vec3 := e.camPos + hd • e.dir

/-- The drag session opened by CASE A on a pinch-down that hits an
object: previous `dragRef` fields overwritten with the hit id, the hit
distance, the pinch-down cursor and the hit object's snapshots. -/
def pinchDownDrag (d : DragState) (tid : String) (hd : ℚ) (c0 : Vec3)
    (obj0 : LiveObject) : DragState :=
  { d with
      isDragging := true
      targetId := some tid
      distanceToCamera := hd
      startCursorPos := c0
      startObjPos := obj0.pos
      startObjRot := obj0.rot
      startObjScale := obj0.scl
      startColorHSL := obj0.colorHSL }

theorem wasPinchOf_mk_some (q : PrevHand) (w : Bool) (d : DragState)
    (g : Vec3) (sc : List (String × LiveObject)) :
    wasPinchOf ⟨some q, w, d, g, sc⟩ = q.gestureWasPinch := rfl

theorem imStep_pinch_down (m : AppMode) (sens : ℚ) (tid : String)
    (hd : ℚ) (s0 : IMState) (obj0 : LiveObject) (h0 : HandData)
    (cam0 dir0 : Vec3)
    (hm : m = .edit ∨ m = .view)
    (hw : s0.waitingForPinchRelease = false)
    (hwas : wasPinchOf s0 = false)
    (hnd : s0.drag.isDragging = false)
    (hobj : lookupObj s0.scene tid = some obj0)
    (hp0 : h0.isPinching = true) :
    (imStep s0 ⟨some h0, m, .translate, sens, cam0, dir0,
        some (tid, hd)⟩).1.waitingForPinchRelease = false ∧
    wasPinchOf (imStep s0 ⟨some h0, m, .translate, sens, cam0, dir0,
        some (tid, hd)⟩).1 = true ∧
    (imStep s0 ⟨some h0, m, .translate, sens, cam0, dir0,
        some (tid, hd)⟩).1.drag =
      pinchDownDrag s0.drag tid hd (cam0 + (10 : ℚ) • dir0) obj0 ∧
    lookupObj (imStep s0 ⟨some h0, m, .translate, sens, cam0, dir0,
        some (tid, hd)⟩).1.scene tid =
      some { obj0 with pos :=
        obj0.pos + ((cam0 + (10 : ℚ) • dir0) - (cam0 + (10 : ℚ) • dir0)) } := by
  rcases hm with hm | hm <;> subst hm <;>
    simp [imStep, hw, hwas, hnd, hobj, hp0, pinchDownDrag,
      wasPinchOf_mk_some, lookupObj_modifyObj, applyDrag]

theorem imStep_drag_frame (m : AppMode) (sens : ℚ) (tid : String)
    (D : DragState) (obj0 : LiveObject) (s : IMState) (e : DragFrame)
    (hm : m = .edit ∨ m = .view)
    (hD : D.isDragging = true) (hDt : D.targetId = some tid)
    (hw : s.waitingForPinchRelease = false)
    (hwas : wasPinchOf s = true)
    (hsd : s.drag = D)
    (q : Vec3)
    (hlook : lookupObj s.scene tid = some { obj0 with pos := q }) :
    (imStep s (toDragInput m .translate sens e)).1.waitingForPinchRelease
        = false ∧
    wasPinchOf (imStep s (toDragInput m .translate sens e)).1 = true ∧
    (imStep s (toDragInput m .translate sens e)).1.drag = D ∧
    lookupObj (imStep s (toDragInput m .translate sens e)).1.scene tid =
      some { obj0 with pos :=
        D.startObjPos + (dragCursor D.distanceToCamera e - D.startCursorPos) } := by
  rcases hm with hm | hm <;> subst hm <;>
    simp [imStep, toDragInput, hw, hwas, hsd, hD, hDt, hlook,
      wasPinchOf_mk_some, lookupObj_modifyObj, applyDrag, dragCursor]

theorem imRun_drag_frames (m : AppMode) (sens : ℚ) (tid : String)
    (D : DragState) (obj0 : LiveObject)
    (hm : m = .edit ∨ m = .view)
    (hD : D.isDragging = true) (hDt : D.targetId = some tid) :
    ∀ (L : List DragFrame) (s : IMState),
      s.waitingForPinchRelease = false →
      wasPinchOf s = true →
      s.drag = D →
      (∃ q : Vec3, lookupObj s.scene tid = some { obj0 with pos := q }) →
      (imRun s (L.map (toDragInput m .translate sens))).1.waitingForPinchRelease
          = false ∧
      wasPinchOf (imRun s (L.map (toDragInput m .translate sens))).1 = true ∧
      (imRun s (L.map (toDragInput m .translate sens))).1.drag = D ∧
      (L = [] →
        (imRun s (L.map (toDragInput m .translate sens))).1.scene = s.scene) ∧
      (∀ e, L.getLast? = some e →
        lookupObj (imRun s (L.map (toDragInput m .translate sens))).1.scene tid
          = some { obj0 with pos :=
              D.startObjPos +
                (dragCursor D.distanceToCamera e - D.startCursorPos) }) := by
  intro L
  induction L with
  | nil =>
    intro s hw hwas hsd _
    refine ⟨hw, hwas, hsd, fun _ => rfl, fun e he => ?_⟩
    simp at he
  | cons e L ih =>
    intro s hw hwas hsd hlook
    obtain ⟨q, hq⟩ := hlook
    have hstep := imStep_drag_frame m sens tid D obj0 s e hm hD hDt hw hwas
      hsd q hq
    have hnext := ih (imStep s (toDragInput m .translate sens e)).1
      hstep.1 hstep.2.1 hstep.2.2.1 ⟨_, hstep.2.2.2⟩
    have hrun : imRun s ((e :: L).map (toDragInput m .translate sens)) =
        ((imRun (imStep s (toDragInput m .translate sens e)).1
            (L.map (toDragInput m .translate sens))).1,
          (imStep s (toDragInput m .translate sens e)).2 ::
            (imRun (imStep s (toDragInput m .translate sens e)).1
              (L.map (toDragInput m .translate sens))).2) := by
      simp [imRun]
    rw [hrun]
    refine ⟨hnext.1, hnext.2.1, hnext.2.2.1, fun hcon => absurd hcon (by simp),
      fun f hf => ?_⟩
    cases L with
    | nil =>
      simp at hf
      subst hf
      rw [hnext.2.2.2.1 rfl]
      exact hstep.2.2.2
    | cons g L2 =>
      rw [List.getLast?_cons_cons] at hf
      exact hnext.2.2.2.2 f hf

/-- C6: a completed translate-mode drag — pinch-down whose raycast hits
object `tid` (snapshotting its live position), any number of sustained
dragging frames, then pinch-up — commits to the store, for `tid`,
exactly the snapshot position plus the cursor's total world-space delta
(final drag cursor minus the pinch-down cursor), together with the live
object's rotation and scale; there is no scaling of the delta and no
drift. -/
theorem translate_drag_roundtrip
    (m : AppMode) (sens : ℚ) (tid : String) (hd : ℚ)
    (s0 : IMState) (obj0 : LiveObject)
    (h0 hF : HandData) (cam0 dir0 camF dirF : Vec3)
    (hitF : Option (String × ℚ)) (L : List DragFrame)
    (hm : m = .edit ∨ m = .view)
    (hw : s0.waitingForPinchRelease = false)
    (hwas : wasPinchOf s0 = false)
    (hnd : s0.drag.isDragging = false)
    (hobj : lookupObj s0.scene tid = some obj0)
    (hp0 : h0.isPinching = true)
    (hpF : hF.isPinching = false) :
    (imStep
      (imRun
        (imStep s0 ⟨some h0, m, .translate, sens, cam0, dir0,
          some (tid, hd)⟩).1
        (L.map (toDragInput m .translate sens))).1
      ⟨some hF, m, .translate, sens, camF, dirF, hitF⟩).2.update =
    some (tid,
      ⟨some (obj0.pos +
          ((L.getLast?.map (dragCursor hd)).getD (cam0 + (10 : ℚ) • dir0)
            - (cam0 + (10 : ℚ) • dir0))),
        some obj0.rot, some obj0.scl, Option.none⟩) := by
  have hdown := imStep_pinch_down m sens tid hd s0 obj0 h0 cam0 dir0 hm hw
    hwas hnd hobj hp0
  set s1 := (imStep s0 ⟨some h0, m, .translate, sens, cam0, dir0,
    some (tid, hd)⟩).1 with hs1
  set D := pinchDownDrag s0.drag tid hd (cam0 + (10 : ℚ) • dir0) obj0 with hD
  have hDfields : D.isDragging = true ∧ D.targetId = some tid ∧
      D.distanceToCamera = hd ∧ D.startCursorPos = cam0 + (10 : ℚ) • dir0 ∧
      D.startObjPos = obj0.pos := by
    simp [hD, pinchDownDrag]
  have hrun := imRun_drag_frames m sens tid D obj0 hm hDfields.1 hDfields.2.1
    L s1 hdown.1 hdown.2.1 hdown.2.2.1 ⟨_, hdown.2.2.2⟩
  set s2 := (imRun s1 (L.map (toDragInput m .translate sens))).1 with hs2
  have hlook2 : lookupObj s2.scene tid = some { obj0 with pos :=
      obj0.pos + ((L.getLast?.map (dragCursor hd)).getD
        (cam0 + (10 : ℚ) • dir0) - (cam0 + (10 : ℚ) • dir0)) } := by
    cases hL : L.getLast? with
    | none =>
      have hLnil : L = [] := by
        cases L with
        | nil => rfl
        | cons a L2 =>
          rw [List.getLast?_eq_getLast_of_ne_nil (List.cons_ne_nil a L2)]
            at hL
          exact absurd hL (by simp)
      subst hLnil
      rw [hs2, hrun.2.2.2.1 rfl, hdown.2.2.2]
      simp
    | some e =>
      have hlast := hrun.2.2.2.2 e hL
      rw [hs2, hlast, hDfields.2.2.2.2, hDfields.2.2.1, hDfields.2.2.2.1]
      simp [hL]
  have hfin : s2.waitingForPinchRelease = false ∧ wasPinchOf s2 = true ∧
      s2.drag = D := ⟨hrun.1, hrun.2.1, hrun.2.2.1⟩
  rcases hm with hm | hm <;> subst hm <;>
    simp [imStep, hfin.1, hfin.2.1, hfin.2.2, hDfields.1, hDfields.2.1,
      hpF, hlook2]

/-- An idle controller state in EDIT/VIEW with one live object
`"cube-1"` at the origin with unit scale. -/
def editIdleExample : IMState where
  prevHandPos := some ⟨0, 0, false⟩
  waitingForPinchRelease := false
  drag :=
    { isDragging := false
      targetId := Option.none
      distanceToCamera := 10
      startCursorPos := ⟨0, 0, 0⟩
      startObjPos := ⟨0, 0, 0⟩
      startObjRot := ⟨0, 0, 0⟩
      startObjScale := ⟨1, 1, 1⟩
      startColorHSL := ⟨0, 0, 0⟩ }
  ghostPos := ⟨0, 0, 0⟩
  scene := [("cube-1", ⟨⟨0, 0, 0⟩, ⟨0, 0, 0⟩, ⟨1, 1, 1⟩, ⟨0, 0, 0⟩⟩)]

/-- Witness for C6: the object at (0,0,0) is grabbed at depth 5 with the
pinch-down cursor at (0,0,10); one dragging frame moves the cursor to
(2,0,10) — a world delta of (2,0,0) — and the pinch-up commits position
(2,0,0) exactly. -/
theorem translate_drag_roundtrip_witness :
    (imStep
      (imRun
        (imStep editIdleExample
          ⟨some ⟨0, 0, .pinch, 0, true⟩, .edit, .translate, 1,
            ⟨0, 0, 0⟩, ⟨0, 0, 1⟩, some ("cube-1", 5)⟩).1
        ([⟨0, 0, ⟨2, 0, 0⟩, ⟨0, 0, 2⟩⟩].map
          (toDragInput .edit .translate 1))).1
      ⟨some ⟨0, 0, GestureType.none, 1, false⟩, .edit, .translate, 1,
        ⟨0, 0, 0⟩, ⟨0, 0, 1⟩, Option.none⟩).2.update =
    some ("cube-1",
      ⟨some ⟨2, 0, 0⟩, some ⟨0, 0, 0⟩, some ⟨1, 1, 1⟩, Option.none⟩) := by
  have h := translate_drag_roundtrip .edit 1 "cube-1" 5 editIdleExample
    ⟨⟨0, 0, 0⟩, ⟨0, 0, 0⟩, ⟨1, 1, 1⟩, ⟨0, 0, 0⟩⟩
    ⟨0, 0, .pinch, 0, true⟩ ⟨0, 0, GestureType.none, 1, false⟩
    ⟨0, 0, 0⟩ ⟨0, 0, 1⟩ ⟨0, 0, 0⟩ ⟨0, 0, 1⟩ Option.none
    [⟨0, 0, ⟨2, 0, 0⟩, ⟨0, 0, 2⟩⟩]
    (Or.inl rfl) rfl rfl rfl (by simp [editIdleExample, lookupObj]) rfl rfl
  rw [h]
  norm_num [dragCursor, Vec3.add_def, Vec3.sub_def, Vec3.smul_def]
